import Mathlib

/-!
Verification of the polymorphic shape model in
`examples/shapes/implementations/python/__init__.py`.

The Python module defines a capability hierarchy (`Shape`, refined by
`Polygon`) with three concrete variants:

* `Circle(radius)` — the constructor raises `ValueError` when `radius` is
  not an `int`, `float` or `complex`; methods `area`, `perimeter`,
  `diameter`.
* `Rectangle(width, height)` — no validation; methods `area`, `perimeter`,
  `edge_count`, `vertex_count`, `is_square`.
* `Triangle(side_a, side_b, side_c)` — no validation; `area` uses Heron's
  formula via `math.sqrt`, which raises `ValueError` on a negative
  radicand; methods `perimeter`, `edge_count`, `vertex_count`.

Numbers are embedded as real numbers (`ℝ`): the Python code computes with
floats, and the design document treats the formulas as exact real
arithmetic.  Fallible operations return `Except PyErr α`, where `PyErr`
distinguishes the Python exception classes relevant here (`TypeError`
vs. `ValueError`).  Methods are additionally given in an explicit
state-passing form (value paired with the post-state of the receiver) to
express frame conditions: the Python method bodies contain no attribute
assignment, so their state-transformer translation returns the receiver
unchanged.
-/

namespace Shapes

/-- Python exception classes relevant to the shape module. -/
inductive PyErr where
  | typeError
  | valueError
deriving DecidableEq, Repr

/-- Python runtime values, as far as the `isinstance` check in
`Circle.__init__` distinguishes them: the numeric classes `int`, `bool`
(a subclass of `int` in Python), `float` and `complex`, and representative
non-numeric values (`str`, `None`). -/
inductive PyVal where
  | int (n : ℤ)
  | bool (b : Bool)
  | float (x : ℝ)
  | complex (re im : ℝ)
  | str (s : String)
  | pyNone

namespace Py

/-- The test `isinstance(radius, (int, float, complex))` from
`Circle.__init__` (line 27).  Python's `bool` is a subclass of `int`, so
it passes the check. -/
def isNumeric : PyVal → Bool
  | .int _ => true
  | .bool _ => true
  | .float _ => true
  | .complex _ _ => true
  | .str _ => false
  | .pyNone => false

/-- A constructed `Circle` object at the Python-value level: the attribute
`radius` stores the constructor argument verbatim. -/
structure Circle where
  radius : PyVal

/-- `Circle.__init__` (lines 26–30): raise `ValueError` when the argument
fails the `isinstance` check, otherwise store it as `self.radius`. -/
def Circle.init (radius : PyVal) : Except PyErr Circle :=
  if isNumeric radius then Except.ok ⟨radius⟩
  else Except.error PyErr.valueError

end Py

/-- `Circle` at the numeric level: `radius` is a real number (the `int` and
`float` cases of the constructor's accepted types). -/
structure Circle where
  radius : ℝ

/-- `Circle.area` (lines 32–33): `math.pi * self.radius * self.radius`. -/
noncomputable def Circle.area (c : Circle) : ℝ :=
  Real.pi * c.radius * c.radius

/-- `Circle.perimeter` (lines 35–36): `2 * math.pi * self.radius`. -/
noncomputable def Circle.perimeter (c : Circle) : ℝ :=
  2 * Real.pi * c.radius

/-- `Circle.diameter` (lines 38–39): `2 * self.radius`. -/
noncomputable def Circle.diameter (c : Circle) : ℝ :=
  2 * c.radius

/-- A constructed `Rectangle` object (lines 43–45). -/
structure Rectangle where
  width : ℝ
  height : ℝ

/-- `Rectangle.__init__` (lines 43–45): stores both arguments verbatim and
contains no `raise` statement, so construction always succeeds. -/
def Rectangle.init (width height : ℝ) : Except PyErr Rectangle :=
  Except.ok ⟨width, height⟩

/-- `Rectangle.area` (lines 47–48): `self.width * self.height`. -/
noncomputable def Rectangle.area (r : Rectangle) : ℝ :=
  r.width * r.height

/-- `Rectangle.perimeter` (lines 50–51): `2 * (self.width + self.height)`. -/
noncomputable def Rectangle.perimeter (r : Rectangle) : ℝ :=
  2 * (r.width + r.height)

/-- `Rectangle.edge_count` (lines 53–54): the constant `4`. -/
def Rectangle.edge_count (_ : Rectangle) : ℤ :=
  4

/-- `Rectangle.vertex_count` (lines 56–57): the constant `4`. -/
def Rectangle.vertex_count (_ : Rectangle) : ℤ :=
  4

/-- `Rectangle.is_square` (lines 59–60): `self.width == self.height`,
Python's exact native equality on the stored numbers. -/
def Rectangle.is_square (r : Rectangle) : Prop :=
  r.width = r.height

/-- Python's `math.sqrt`: raises `ValueError` ("math domain error") on a
negative argument, otherwise returns the square root. -/
noncomputable def mathSqrt (x : ℝ) : Except PyErr ℝ :=
  if x < 0 then Except.error PyErr.valueError
  else Except.ok (Real.sqrt x)

/-- A constructed `Triangle` object (lines 64–67). -/
structure Triangle where
  side_a : ℝ
  side_b : ℝ
  side_c : ℝ

/-- `Triangle.__init__` (lines 64–67): stores the three sides verbatim and
contains no `raise` statement, so construction always succeeds. -/
def Triangle.init (side_a side_b side_c : ℝ) : Except PyErr Triangle :=
  Except.ok ⟨side_a, side_b, side_c⟩

/-- The operand passed to `math.sqrt` in `Triangle.area` (lines 70–71):
`s * (s - side_a) * (s - side_b) * (s - side_c)` with
`s = (side_a + side_b + side_c) / 2`. -/
noncomputable def Triangle.radicand (t : Triangle) : ℝ :=
  let s := (t.side_a + t.side_b + t.side_c) / 2
  s * (s - t.side_a) * (s - t.side_b) * (s - t.side_c)

/-- `Triangle.area` (lines 69–71): `math.sqrt` applied to the Heron
radicand. -/
noncomputable def Triangle.area (t : Triangle) : Except PyErr ℝ :=
  mathSqrt (Triangle.radicand t)

/-- `Triangle.perimeter` (lines 73–74): `side_a + side_b + side_c`. -/
noncomputable def Triangle.perimeter (t : Triangle) : ℝ :=
  t.side_a + t.side_b + t.side_c

/-- `Triangle.edge_count` (lines 76–77): the constant `3`. -/
def Triangle.edge_count (_ : Triangle) : ℤ :=
  3

/-- `Triangle.vertex_count` (lines 79–80): the constant `3`. -/
def Triangle.vertex_count (_ : Triangle) : ℤ :=
  3

/-- Heron's formula as written in the design document (§4.5): with
`s = (a + b + c) / 2`, the area is `sqrt (s (s−a) (s−b) (s−c))`. -/
noncomputable def heronArea (a b c : ℝ) : ℝ :=
  Real.sqrt ((a + b + c) / 2 * ((a + b + c) / 2 - a) *
    ((a + b + c) / 2 - b) * ((a + b + c) / 2 - c))

/-- State-passing form of `Circle.area`: the method body (line 33) reads
`self.radius` and assigns no attribute, so the receiver is returned
unchanged. -/
noncomputable def Circle.areaSt (c : Circle) : ℝ × Circle :=
  (Circle.area c, c)

/-- State-passing form of `Circle.perimeter` (line 36): no attribute
assignment. -/
noncomputable def Circle.perimeterSt (c : Circle) : ℝ × Circle :=
  (Circle.perimeter c, c)

/-- State-passing form of `Circle.diameter` (line 39): no attribute
assignment. -/
noncomputable def Circle.diameterSt (c : Circle) : ℝ × Circle :=
  (Circle.diameter c, c)

/-- State-passing form of `Rectangle.area` (line 48): no attribute
assignment. -/
noncomputable def Rectangle.areaSt (r : Rectangle) : ℝ × Rectangle :=
  (Rectangle.area r, r)

/-- State-passing form of `Rectangle.perimeter` (line 51): no attribute
assignment. -/
noncomputable def Rectangle.perimeterSt (r : Rectangle) : ℝ × Rectangle :=
  (Rectangle.perimeter r, r)

/-- State-passing form of `Rectangle.edge_count` (line 54): no attribute
assignment. -/
def Rectangle.edge_countSt (r : Rectangle) : ℤ × Rectangle :=
  (Rectangle.edge_count r, r)

/-- State-passing form of `Rectangle.vertex_count` (line 57): no attribute
assignment. -/
def Rectangle.vertex_countSt (r : Rectangle) : ℤ × Rectangle :=
  (Rectangle.vertex_count r, r)

/-- State-passing form of `Rectangle.is_square` (line 60): no attribute
assignment. -/
def Rectangle.is_squareSt (r : Rectangle) : Prop × Rectangle :=
  (Rectangle.is_square r, r)

/-- State-passing form of `Triangle.area` (lines 69–71): the body reads the
three sides and assigns no attribute, also on the error path. -/
noncomputable def Triangle.areaSt (t : Triangle) : Except PyErr ℝ × Triangle :=
  (Triangle.area t, t)

/-- State-passing form of `Triangle.perimeter` (line 74): no attribute
assignment. -/
noncomputable def Triangle.perimeterSt (t : Triangle) : ℝ × Triangle :=
  (Triangle.perimeter t, t)

/-- State-passing form of `Triangle.edge_count` (line 77): no attribute
assignment. -/
def Triangle.edge_countSt (t : Triangle) : ℤ × Triangle :=
  (Triangle.edge_count t, t)

/-- State-passing form of `Triangle.vertex_count` (line 80): no attribute
assignment. -/
def Triangle.vertex_countSt (t : Triangle) : ℤ × Triangle :=
  (Triangle.vertex_count t, t)

/-- Factored form of the Heron radicand: sixteen times the radicand is the
product `(a+b+c)(b+c−a)(a+c−b)(a+b−c)`. -/
theorem radicand_eq (a b c : ℝ) :
    Triangle.radicand ⟨a, b, c⟩ =
      (a + b + c) * (b + c - a) * (a + c - b) * (a + b - c) / 16 := by
  show (a + b + c) / 2 * ((a + b + c) / 2 - a) * ((a + b + c) / 2 - b) *
      ((a + b + c) / 2 - c) = _
  ring

/-- When the three sides obey the (non-strict) triangle inequality, the
Heron radicand is nonnegative. -/
theorem radicand_nonneg (a b c : ℝ)
    (h1 : a ≤ b + c) (h2 : b ≤ a + c) (h3 : c ≤ a + b) :
    0 ≤ Triangle.radicand ⟨a, b, c⟩ := by
  rw [radicand_eq]
  have hc : 0 ≤ c := by linarith
  have hP : 0 ≤ a + b + c := by linarith
  exact div_nonneg
    (mul_nonneg (mul_nonneg (mul_nonneg hP (by linarith)) (by linarith))
      (by linarith)) (by norm_num)

/-- For nonnegative sides, the Heron radicand is negative exactly when the
(non-strict) triangle inequality fails. -/
theorem radicand_neg_iff (a b c : ℝ) (ha : 0 ≤ a) (hb : 0 ≤ b) (hc : 0 ≤ c) :
    Triangle.radicand ⟨a, b, c⟩ < 0 ↔
      ¬(a ≤ b + c ∧ b ≤ a + c ∧ c ≤ a + b) := by
  constructor
  · intro h hI
    exact absurd h (not_lt.2 (radicand_nonneg a b c hI.1 hI.2.1 hI.2.2))
  · intro h
    have hor : b + c < a ∨ a + c < b ∨ a + b < c := by
      by_contra hcon
      push_neg at hcon
      exact h ⟨hcon.1, hcon.2.1, hcon.2.2⟩
    rw [radicand_eq]
    rcases hor with hlt | hlt | hlt
    · have hprod : (a + b + c) * (b + c - a) * (a + c - b) * (a + b - c) < 0 :=
        mul_neg_of_neg_of_pos
          (mul_neg_of_neg_of_pos
            (mul_neg_of_pos_of_neg (by linarith) (by linarith)) (by linarith))
          (by linarith)
      linarith
    · have hprod : (a + b + c) * (b + c - a) * (a + c - b) * (a + b - c) < 0 :=
        mul_neg_of_neg_of_pos
          (mul_neg_of_pos_of_neg
            (mul_pos (by linarith) (by linarith)) (by linarith))
          (by linarith)
      linarith
    · have hprod : (a + b + c) * (b + c - a) * (a + c - b) * (a + b - c) < 0 :=
        mul_neg_of_pos_of_neg
          (mul_pos (mul_pos (by linarith) (by linarith)) (by linarith))
          (by linarith)
      linarith

/-- `Triangle.area` evaluates to Python's `ValueError` exactly when the
radicand handed to `math.sqrt` is negative. -/
theorem area_error_iff (t : Triangle) :
    Triangle.area t = Except.error PyErr.valueError ↔
      Triangle.radicand t < 0 := by
  unfold Triangle.area mathSqrt
  by_cases h : Triangle.radicand t < 0
  · simp [h]
  · simp [h]

/-- When the radicand is zero, `Triangle.area` succeeds with value `0`. -/
theorem area_of_radicand_zero (t : Triangle) (h : Triangle.radicand t = 0) :
    Triangle.area t = Except.ok 0 := by
  unfold Triangle.area mathSqrt
  rw [h, if_neg (lt_irrefl (0 : ℝ)), Real.sqrt_zero]

/-- C5: for every width `w` and height `h`, stored verbatim with no
validation, `Rectangle(w, h).area()` equals `w * h` and
`Rectangle(w, h).perimeter()` equals `2 * (w + h)`. -/
theorem rectangle_area_perimeter (w h : ℝ) :
    Rectangle.init w h = Except.ok ⟨w, h⟩ ∧
    (Rectangle.mk w h).width = w ∧ (Rectangle.mk w h).height = h ∧
    Rectangle.area ⟨w, h⟩ = w * h ∧
    Rectangle.perimeter ⟨w, h⟩ = 2 * (w + h) :=
  ⟨rfl, rfl, rfl, rfl, rfl⟩

/-- C7: every `Rectangle` reports `edge_count() == vertex_count() == 4` and
every `Triangle` reports `edge_count() == vertex_count() == 3`; hence every
polygon variant satisfies `edge_count() == vertex_count()`. -/
theorem polygon_edge_vertex_counts (r : Rectangle) (t : Triangle) :
    Rectangle.edge_count r = 4 ∧ Rectangle.vertex_count r = 4 ∧
    Triangle.edge_count t = 3 ∧ Triangle.vertex_count t = 3 ∧
    Rectangle.edge_count r = Rectangle.vertex_count r ∧
    Triangle.edge_count t = Triangle.vertex_count t :=
  ⟨rfl, rfl, rfl, rfl, rfl, rfl⟩

/-- C1 (counterexample): `Circle("not a number")` raises `ValueError`, not
a `TypeError`-kind error, so the claim's stated exception kind is wrong. -/
theorem circle_init_not_typeError :
    Py.Circle.init (PyVal.str "not a number") = Except.error PyErr.valueError ∧
    Py.Circle.init (PyVal.str "not a number") ≠ Except.error PyErr.typeError := by
  refine ⟨rfl, fun hcontra => ?_⟩
  simp [Py.Circle.init, Py.isNumeric] at hcontra

/-- C1 (amended): constructing a `Circle` whose radius argument is not a
recognized numeric type fails with a `ValueError` (not `TypeError`) that
propagates immediately to the caller; for every numeric argument
construction succeeds and stores the radius verbatim. -/
theorem circle_init_valueError (v : PyVal) :
    (Py.isNumeric v = true → Py.Circle.init v = Except.ok ⟨v⟩) ∧
    (Py.isNumeric v = false →
      Py.Circle.init v = Except.error PyErr.valueError) := by
  constructor <;> intro hv <;> simp [Py.Circle.init, hv]

/-- Witness for C1's amended theorem at a numeric and a non-numeric
argument. -/
theorem circle_init_valueError_witness :
    Py.Circle.init (PyVal.int 7) = Except.ok ⟨PyVal.int 7⟩ ∧
    Py.Circle.init (PyVal.str "not a number") =
      Except.error PyErr.valueError :=
  ⟨(circle_init_valueError (PyVal.int 7)).1 rfl,
   (circle_init_valueError (PyVal.str "not a number")).2 rfl⟩

/-- C2: `Triangle` construction never fails, and `Triangle.area()` raises a
`ValueError` domain error exactly when the three (nonnegative) side lengths
do not satisfy the triangle inequality, equivalently exactly when the Heron
radicand is negative; the error arises at the `area()` call, never at
construction. -/
theorem triangle_lazy_domain_error (a b c : ℝ)
    (ha : 0 ≤ a) (hb : 0 ≤ b) (hc : 0 ≤ c) :
    Triangle.init a b c = Except.ok ⟨a, b, c⟩ ∧
    (Triangle.area ⟨a, b, c⟩ = Except.error PyErr.valueError ↔
      ¬(a ≤ b + c ∧ b ≤ a + c ∧ c ≤ a + b)) ∧
    (Triangle.area ⟨a, b, c⟩ = Except.error PyErr.valueError ↔
      Triangle.radicand ⟨a, b, c⟩ < 0) :=
  ⟨rfl,
   (area_error_iff ⟨a, b, c⟩).trans (radicand_neg_iff a b c ha hb hc),
   area_error_iff ⟨a, b, c⟩⟩

/-- Witness for C2 at the invalid sides `(1, 1, 3)`: construction succeeds
yet `area()` raises. -/
theorem triangle_lazy_domain_error_witness :
    Triangle.area ⟨1, 1, 3⟩ = Except.error PyErr.valueError :=
  ((triangle_lazy_domain_error 1 1 3 (by norm_num) (by norm_num)
      (by norm_num)).2.1).mpr
    (fun hI => absurd hI.2.2 (by norm_num))

/-- C3: for every radius `r ≥ 0`, `Circle(r).diameter() = 2r`,
`Circle(r).perimeter() = 2πr` and `Circle(r).area() = πr·r`, each a pure
function of the stored radius. -/
theorem circle_formulas (r : ℝ) (h : 0 ≤ r) :
    Circle.diameter ⟨r⟩ = 2 * r ∧
    Circle.perimeter ⟨r⟩ = 2 * Real.pi * r ∧
    Circle.area ⟨r⟩ = Real.pi * r * r :=
  ⟨rfl, rfl, rfl⟩

/-- Witness for C3 at radius `7`. -/
theorem circle_formulas_witness : Circle.diameter ⟨7⟩ = 2 * 7 :=
  (circle_formulas 7 (by norm_num)).1

/-- C4: for sides satisfying the triangle inequality, perimeter is the sum
of the sides and `area()` succeeds with exactly Heron's formula; in
particular `Triangle(3,4,5)` has perimeter `12` and area exactly `6`. -/
theorem triangle_perimeter_heron (a b c : ℝ)
    (h1 : a ≤ b + c) (h2 : b ≤ a + c) (h3 : c ≤ a + b) :
    Triangle.perimeter ⟨a, b, c⟩ = a + b + c ∧
    Triangle.area ⟨a, b, c⟩ = Except.ok (heronArea a b c) ∧
    Triangle.perimeter ⟨3, 4, 5⟩ = 12 ∧
    Triangle.area ⟨3, 4, 5⟩ = Except.ok 6 := by
  refine ⟨rfl, ?_, by norm_num [Triangle.perimeter], ?_⟩
  · have hrad := radicand_nonneg a b c h1 h2 h3
    unfold Triangle.area mathSqrt
    rw [if_neg (not_lt.2 hrad)]
    rfl
  · have h36 : Triangle.radicand ⟨3, 4, 5⟩ = 36 := by
      rw [radicand_eq]; norm_num
    unfold Triangle.area mathSqrt
    rw [h36, if_neg (by norm_num : ¬(36 : ℝ) < 0),
      show (36 : ℝ) = 6 ^ 2 by norm_num,
      Real.sqrt_sq (by norm_num : (0 : ℝ) ≤ 6)]

/-- Witness for C4 at the right triangle `(3, 4, 5)`. -/
theorem triangle_perimeter_heron_witness :
    Triangle.area ⟨3, 4, 5⟩ = Except.ok 6 :=
  (triangle_perimeter_heron 3 4 5 (by norm_num) (by norm_num)
    (by norm_num)).2.2.2

/-- C6: `is_square()` is the exact native equality of the stored width and
height: it holds on `Rectangle(w, w)` and fails whenever `w ≠ h`. -/
theorem rectangle_is_square_exact (w h : ℝ) :
    (Rectangle.is_square ⟨w, h⟩ ↔ w = h) ∧
    Rectangle.is_square ⟨w, w⟩ ∧
    (w ≠ h → ¬Rectangle.is_square ⟨w, h⟩) :=
  ⟨Iff.rfl, rfl, fun hne hsq => hne hsq⟩

/-- Witness for C6 at `Rectangle(10, 4)`, which is not a square. -/
theorem rectangle_is_square_exact_witness :
    ¬Rectangle.is_square ⟨10, 4⟩ :=
  (rectangle_is_square_exact 10 4).2.2 (by norm_num)

/-- C8: the fallible-modelled operations other than `Circle` construction
on a non-numeric argument never raise: `Rectangle` and `Triangle`
construction always succeed, and `Circle` construction succeeds on every
numeric argument.  The remaining methods (`area`, `perimeter`, `diameter`,
`edge_count`, `vertex_count`, `is_square`) are embedded as total functions
into `ℝ`, `ℤ` or `Prop` because their Python bodies contain no fallible
primitive — the only `raise` sites in the module are `Circle.__init__` and
`math.sqrt` inside `Triangle.area`. -/
theorem operations_total :
    (∀ w h : ℝ, Rectangle.init w h = Except.ok ⟨w, h⟩) ∧
    (∀ a b c : ℝ, Triangle.init a b c = Except.ok ⟨a, b, c⟩) ∧
    (∀ v : PyVal, Py.isNumeric v = true →
      ∃ obj, Py.Circle.init v = Except.ok obj) := by
  refine ⟨fun w h => rfl, fun a b c => rfl, fun v hv => ⟨⟨v⟩, ?_⟩⟩
  simp [Py.Circle.init, hv]

/-- Witness for C8 at the numeric argument `7`. -/
theorem operations_total_witness :
    ∃ obj, Py.Circle.init (PyVal.int 7) = Except.ok obj :=
  operations_total.2.2 (PyVal.int 7) rfl

/-- C9: every capability method leaves the receiver's stored attributes
unchanged (the post-state equals the pre-state), and a repeated call on the
same instance returns the same value. -/
theorem methods_pure_frame (c : Circle) (r : Rectangle) (t : Triangle) :
    (Circle.areaSt c).2 = c ∧ (Circle.perimeterSt c).2 = c ∧
    (Circle.diameterSt c).2 = c ∧
    (Rectangle.areaSt r).2 = r ∧ (Rectangle.perimeterSt r).2 = r ∧
    (Rectangle.edge_countSt r).2 = r ∧ (Rectangle.vertex_countSt r).2 = r ∧
    (Rectangle.is_squareSt r).2 = r ∧
    (Triangle.areaSt t).2 = t ∧ (Triangle.perimeterSt t).2 = t ∧
    (Triangle.edge_countSt t).2 = t ∧ (Triangle.vertex_countSt t).2 = t ∧
    (Circle.areaSt (Circle.areaSt c).2).1 = (Circle.areaSt c).1 ∧
    (Rectangle.areaSt (Rectangle.areaSt r).2).1 = (Rectangle.areaSt r).1 ∧
    (Triangle.areaSt (Triangle.areaSt t).2).1 = (Triangle.areaSt t).1 :=
  ⟨rfl, rfl, rfl, rfl, rfl, rfl, rfl, rfl, rfl, rfl, rfl, rfl, rfl, rfl, rfl⟩

/-- C10: when one side equals the sum of the other two, the Heron radicand
is exactly zero, so `Triangle.area()` returns `0` and does not raise; in
particular `Triangle(1, 2, 3).area()` returns `0`. -/
theorem triangle_degenerate_boundary (a b : ℝ) :
    Triangle.radicand ⟨a, b, a + b⟩ = 0 ∧
    Triangle.area ⟨a, b, a + b⟩ = Except.ok 0 ∧
    Triangle.radicand ⟨a + b, a, b⟩ = 0 ∧
    Triangle.area ⟨a + b, a, b⟩ = Except.ok 0 ∧
    Triangle.radicand ⟨a, a + b, b⟩ = 0 ∧
    Triangle.area ⟨a, a + b, b⟩ = Except.ok 0 ∧
    Triangle.area ⟨1, 2, 3⟩ = Except.ok 0 := by
  have e1 : Triangle.radicand ⟨a, b, a + b⟩ = 0 := by rw [radicand_eq]; ring
  have e2 : Triangle.radicand ⟨a + b, a, b⟩ = 0 := by rw [radicand_eq]; ring
  have e3 : Triangle.radicand ⟨a, a + b, b⟩ = 0 := by rw [radicand_eq]; ring
  have e4 : Triangle.radicand ⟨1, 2, 3⟩ = 0 := by rw [radicand_eq]; norm_num
  exact ⟨e1, area_of_radicand_zero _ e1, e2, area_of_radicand_zero _ e2,
    e3, area_of_radicand_zero _ e3, area_of_radicand_zero _ e4⟩

end Shapes
